import Mathlib

/-!
# Shallow embedding of the AVL dataset-convention core

This file embeds the two halves of the `avl` package:

* `src/avl/dataset.py` — the sample-dataset generator (`new_dataset` and its
  helpers `get_geospatial_attrs`, `get_time_coverage_attrs`);
* `src/avl/verify.py` — the convention validator (`verify_dataset` and the
  rule functions `check_global_attrs`, `check_time_coord`, `check_xy_coords`).

Modelling decisions, uniform throughout:

* Floating-point numbers are modelled by `ℚ` (exact arithmetic stands in for
  IEEE doubles; the formulas of the source are purely rational).
* Time instants are modelled by `ℤ`, counting units of the time axis
  frequency's base unit (seconds for the default `datetime64[s]` axis).
  `pandas.date_range` / `xarray.cftime_range` with a fixed-duration frequency
  string produce equally spaced instants; that external-library behaviour is
  modelled by `date_range` / `cftime_range` below.
* Python exceptions are modelled by `Except String`: a raised exception is an
  `.error` carrying the exception class and context.
* Python dicts are modelled by association lists with first-match lookup;
  `dict.update` is `dictUpdate` which gives the updating list priority.
* Attribute and issue messages keep the wording of the source, with Python
  `repr` quoting elided.
-/

namespace AVL

/-- A global- or variable-attribute value: a string, a number, or the
bounding-box payload of the `geospatial_bounds` WKT polygon (the polygon
string of `get_geospatial_attrs` is determined by its four corner numbers,
which is what we store; the textual formatting is elided). -/
inductive AttrVal where
  | str (s : String)
  | num (q : ℚ)
  | bbox (lonMin latMin lonMax latMax : ℚ)
  deriving DecidableEq

/-- An attribute mapping (Python dict of attributes), as an association
list with first-match lookup. -/
abbrev Attrs := List (String × AttrVal)

/-- Does the attribute mapping contain the key? (`key in dict`). -/
def hasKey (a : Attrs) (k : String) : Bool :=
  a.any (fun kv => kv.1 == k)

/-- First-match lookup in an attribute mapping (`dict[key]` access). -/
def lookupAttr (a : Attrs) (k : String) : Option AttrVal :=
  match a with
  | [] => none
  | kv :: rest => if kv.1 == k then some kv.2 else lookupAttr rest k

/-- `dict.update`: entries of `u` override entries of `d`; for lookup
purposes the old bindings of updated keys disappear. -/
def dictUpdate (d u : Attrs) : Attrs :=
  d.filter (fun kv => !(hasKey u kv.1)) ++ u

/-- An `xarray` variable, as far as the convention core inspects it:
its dimension names, its attribute mapping (`.attrs`; the separate
`.encoding` mapping of the source is not part of it, matching xarray),
its 1-D data (`values`, used by the monotonicity checks on coordinate
variables) and its (n × 2) data for bounds variables (`values2`).
For variables of other shapes the data plays no role in any rule and the
lists are left empty. -/
structure Variable where
  dims : List String
  attrs : Attrs
  values : List ℚ := []
  values2 : List (ℚ × ℚ) := []
  deriving DecidableEq

/-- `var.ndim`. -/
def Variable.ndim (v : Variable) : Nat := v.dims.length

/-- An `xarray.Dataset`, as far as the convention core inspects it: the
mapping of variable names to variables (`ds.variables`, iterated in list
order) and the global attribute mapping (`ds.attrs`). -/
structure Dataset where
  vars : List (String × Variable)
  attrs : Attrs
  deriving DecidableEq

/-- First-match lookup in a variable mapping. -/
def lookupVar (vs : List (String × Variable)) (name : String) : Option Variable :=
  match vs with
  | [] => none
  | nv :: rest => if nv.1 == name then some nv.2 else lookupVar rest name

/-- `ds.get(name)` / `ds[name]` lookup among the dataset's variables. -/
def Dataset.get (ds : Dataset) (name : String) : Option Variable :=
  lookupVar ds.vars name

/-- `name in ds`. -/
def Dataset.hasVar (ds : Dataset) (name : String) : Bool :=
  (ds.get name).isSome

/-- Concatenation of the per-item results of a loop body
(`issues += f(item)` over a list). -/
def concatMap (f : α → List β) : List α → List β
  | [] => []
  | x :: xs => f x ++ concatMap f xs

/-! ## verify.py -/

/-- Severity literal `'WARNING'`. -/
def WARNING : String := "WARNING"

/-- Severity literal `'ERROR'`. -/
def ERROR : String := "ERROR"

/-- An issue: severity and message (`Issue = Tuple[str, str]`). -/
abbrev Issue := String × String

/-- `_EXPECTED_GLOBAL_ATTRS` of verify.py. -/
def EXPECTED_GLOBAL_ATTRS : List String :=
  ["Conventions", "title", "summary", "sources", "history", "keywords", "id",
   "time_coverage_start", "time_coverage_end", "time_coverage_resolution",
   "geospatial_lon_min", "geospatial_lon_max", "geospatial_lon_resolution",
   "geospatial_lon_units", "geospatial_lat_min", "geospatial_lat_max",
   "geospatial_lat_resolution", "geospatial_lat_units"]

/-- `_EXPECTED_VARIABLE_ATTRS` of verify.py: attribute name and the
variable-type tag (`None` or `'quantity'`). -/
def EXPECTED_VARIABLE_ATTRS : List (String × Option String) :=
  [("long_name", none), ("standard_name", some "quantity"),
   ("units", some "quantity")]

/-- `_warning(msg)`. -/
def oneWarning (msg : String) : List Issue := [(WARNING, msg)]

/-- `_severe(msg)`. -/
def oneSevere (msg : String) : List Issue := [(ERROR, msg)]

/-- `_check_global_attr`. -/
def checkGlobalAttr (ds : Dataset) (attrName : String) : List Issue :=
  if hasKey ds.attrs attrName then []
  else oneWarning ("missing global attribute " ++ attrName)

/-- `check_global_attrs` (rule 1): pure, never raises. -/
def check_global_attrs (ds : Dataset) : List Issue :=
  concatMap (fun a => checkGlobalAttr ds a) EXPECTED_GLOBAL_ATTRS

/-- `_is_quantity_var`, taking the variable alongside its name: the source
reads `ds[var_name]`, which its callers only do after a membership check. -/
def isQuantityVar (name : String) (v : Variable) : Bool :=
  !(name == "crs") && v.ndim > 0 && !(hasKey v.attrs "flag_names")

/-- `_check_variable_attr`. -/
def checkVariableAttr (name : String) (v : Variable) (attrName : String) :
    List Issue :=
  if hasKey v.attrs attrName then []
  else oneWarning ("missing attribute " ++ attrName ++ " in variable " ++ name)

/-- `_check_variable`. -/
def checkVariable (ds : Dataset) (name : String) : List Issue :=
  match ds.get name with
  | none => oneSevere ("missing variable " ++ name)
  | some v =>
    concatMap (fun p =>
        if p.2 == some "quantity" && isQuantityVar name v then
          checkVariableAttr name v p.1
        else [])
      EXPECTED_VARIABLE_ATTRS

/-- `_check_1d_coord`: note that the source reads `ds[var_name]` with no
membership guard, so a missing variable raises `KeyError`. -/
def check1dCoord (ds : Dataset) (name : String) : Except String (List Issue) :=
  match ds.get name with
  | none => .error ("KeyError: " ++ name)
  | some v =>
    .ok (if v.dims != [name] then
           oneSevere ("variable " ++ name ++
             " must have a single dimension " ++ name)
         else [])

/-- `numpy.diff`-style consecutive differences (`var.diff(dim=...)` for a
1-D variable). -/
def diffs : List ℚ → List ℚ
  | x :: y :: rest => (y - x) :: diffs (y :: rest)
  | _ => []

/-- `np.all(var_diff > 0)`. -/
def allPos (qs : List ℚ) : Bool := qs.all (fun q => decide (0 < q))

/-- `np.all(var_diff < 0)`. -/
def allNeg (qs : List ℚ) : Bool := qs.all (fun q => decide (q < 0))

/-- `_check_mono_inc`: raises `KeyError` (through `_check_1d_coord` and
the unguarded `ds[var_name]`) if the variable is absent, and raises
(`ValueError` from `var.diff`) if the variable lacks a dimension of its
own name.  The timedelta-to-float conversion of the source is
sign-preserving and needs no counterpart over `ℚ`. -/
def checkMonoInc (ds : Dataset) (name : String) : Except String (List Issue) := do
  let issues ← check1dCoord ds name
  match ds.get name with
  | none => .error ("KeyError: " ++ name)
  | some v =>
    if v.dims.contains name then
      .ok (issues ++
        (if !(allPos (diffs v.values)) then
           oneSevere ("values of variable " ++ name ++
             " must be strictly monotonically increasing")
         else []))
    else .error ("ValueError: " ++ name ++ " has no dimension " ++ name)

/-- `_check_mono_inc_or_dec`. -/
def checkMonoIncOrDec (ds : Dataset) (name : String) :
    Except String (List Issue) := do
  let issues ← check1dCoord ds name
  match ds.get name with
  | none => .error ("KeyError: " ++ name)
  | some v =>
    if v.dims.contains name then
      .ok (issues ++
        (if !(allPos (diffs v.values) || allNeg (diffs v.values)) then
           oneSevere ("values of variable " ++ name ++
             " must be strictly monotonically increasing or decreasing")
         else []))
    else .error ("ValueError: " ++ name ++ " has no dimension " ++ name)

/-- `pyproj.CRS.from_cf` acceptance of a CF attribute mapping is
external-library behaviour (no claim exercises a malformed CRS encoding);
modelled as accepting every mapping. -/
def pyprojFromCfOk (_a : Attrs) : Bool := true

/-- `_check_crs`: pure (the pyproj failure is caught by the source). -/
def checkCrs (ds : Dataset) (name : String) : List Issue :=
  let issues := checkVariable ds name
  match ds.get name with
  | some v =>
    if pyprojFromCfOk v.attrs then issues
    else issues ++ oneSevere ("invalid " ++ name ++ " variable")
  | none => issues

/-- `var.dims[-2:]`. -/
def lastTwo (l : List String) : List String := l.drop (l.length - 2)

/-- `check_time_coord` (rule 2). -/
def check_time_coord (ds : Dataset) : Except String (List Issue) := do
  let issues1 := checkVariable ds "time"
  let issues2 ← checkMonoInc ds "time"
  let timeDim := "time"
  let dimIssues : List Issue :=
    match ds.get "time" with
    | some tv =>
      if tv.dims == [timeDim] then
        concatMap (fun nv =>
            if nv.2.dims.contains timeDim && nv.2.dims.length > 1 &&
               nv.2.dims.head? != some timeDim then
              oneSevere ("first dimension of variable " ++ nv.1 ++
                " must be " ++ timeDim)
            else [])
          ds.vars
      else []
    | none => []
  .ok (issues1 ++ issues2 ++ dimIssues)

/-- `check_xy_coords` (rule 3).  The two comparisons of the 2-D
lon/lat branch are reproduced exactly as written in the source
(verify.py lines 161 and 163): the first tests `lon.dims != ('y', 'x')`,
the second tests `lat.dims == ('y', 'x')` — with `==`, not `!=`. -/
def check_xy_coords (ds : Dataset) : Except String (List Issue) := do
  let mut issues : List Issue := []
  let mut yxDims : Option (String × String) := none
  match ds.get "x", ds.get "y" with
  | some xv, some yv =>
    issues := issues ++ checkVariable ds "x" ++ checkVariable ds "y"
    if xv.ndim == 1 && yv.ndim == 1 then
      yxDims := some ("y", "x")
      let i1 ← checkMonoInc ds "x"
      let i2 ← checkMonoIncOrDec ds "y"
      issues := issues ++ i1 ++ i2 ++ checkCrs ds "crs"
    else
      issues := issues ++ oneSevere "coordinate variables x and y must both be 1-D"
  | _, _ => pure ()
  match ds.get "lon", ds.get "lat" with
  | some lonv, some latv =>
    issues := issues ++ checkVariable ds "lon" ++ checkVariable ds "lat"
    if lonv.ndim == 1 && latv.ndim == 1 then
      yxDims := some ("lat", "lon")
      let i1 ← checkMonoInc ds "lon"
      let i2 ← checkMonoIncOrDec ds "lat"
      issues := issues ++ i1 ++ i2
    else if lonv.ndim == 2 && latv.ndim == 2 then
      if lonv.dims != ["y", "x"] then
        issues := issues ++ oneSevere "dimensions of lat must be (y, x)"
      if latv.dims == ["y", "x"] then
        issues := issues ++ oneSevere "dimensions of lat must be (y, x)"
      yxDims := some ("y", "x")
    else
      issues := issues ++
        oneSevere "coordinate variables lon and lat must both be either 1-D or 2-D"
  | _, _ => pure ()
  match yxDims with
  | none => issues := issues ++ oneSevere "no valid spatial coordinates found"
  | some (yDim, xDim) =>
    issues := issues ++
      concatMap (fun nv =>
          if nv.2.dims.contains yDim && nv.2.dims.contains xDim &&
             lastTwo nv.2.dims != [yDim, xDim] then
            oneSevere ("last two dimensions of variable " ++ nv.1 ++
              " must be (" ++ yDim ++ ", " ++ xDim ++ ")")
          else [])
        ds.vars
  return issues

/-- A rule: dataset to issues, possibly raising. -/
abbrev VRule := Dataset → Except String (List Issue)

/-- `get_rules`: the fixed, ordered rule list. -/
def get_rules : List VRule :=
  [fun ds => .ok (check_global_attrs ds), check_time_coord, check_xy_coords]

/-- The accumulation loop of `verify_dataset`: per rule, append the rule's
issues (filtered to ERROR severity unless the level is not `'ERROR'`). -/
def verifyLoop (ds : Dataset) (level : String) :
    List VRule → Except String (List Issue)
  | [] => .ok []
  | r :: rs => do
    let issues ← r ds
    let contrib :=
      if issues.isEmpty then []
      else if level != ERROR then issues
      else issues.filter (fun i => i.1 == ERROR)
    let rest ← verifyLoop ds level rs
    .ok (contrib ++ rest)

/-- `verify_dataset` for an in-memory dataset (the Zarr-store deserialization
branch of the source is external I/O).  The source's default level is
`'ERROR'`. -/
def verify_dataset (ds : Dataset) (level : String) : Except String (List Issue) :=
  verifyLoop ds level get_rules

/-! ## dataset.py -/

/-- `DEFAULT_METADATA` of dataset.py. -/
def DEFAULT_METADATA : Attrs :=
  [("Conventions", .str "CF-1.7"),
   ("title", .str "AVL test dataset"),
   ("summary", .str
     "This dataset is used to demonstrate the AVL common dataset convention"),
   ("keywords", .str "ESA, AVL, Agriculture, EO")]

/-- `numpy.linspace(a, b, n)` (endpoint included): `n` evenly spaced values
`a + i * (b - a)/(n - 1)`; a single requested value gives `[a]`. -/
def linspace (a b : ℚ) (n : Nat) : List ℚ :=
  if n == 1 then [a]
  else (List.range n).map (fun (i : Nat) => a + (i : ℚ) * ((b - a) / ((n : ℚ) - 1)))

/-- A pyproj CRS, as far as dataset.py uses one: whether it is geographic,
its transform to the interchange CRS84 (the external pyproj reprojection,
carried abstractly as a function), and its CF encoding (`crs.to_cf()`). -/
structure CRSModel where
  isGeographic : Bool
  toCrs84 : ℚ × ℚ → ℚ × ℚ
  cf : Attrs

/-- `CRS_CRS84`: geographic, identity interchange transform. -/
def CRS_CRS84 : CRSModel :=
  { isGeographic := true, toCrs84 := id, cf := [("crs_wkt", .str "CRS84")] }

/-- `get_geospatial_attrs(bbox, res, crs)`: the geographic branch uses the
box and resolution directly; the projected branch reprojects the two box
corners, the box center, and the center shifted by one resolution step, and
estimates the lon/lat resolution as the absolute difference of the two
transformed center points.  The WKT polygon string is carried as its four
corner numbers (`AttrVal.bbox`). -/
def get_geospatial_attrs (bbox : ℚ × ℚ × ℚ × ℚ) (res : ℚ × ℚ)
    (crs : CRSModel) : Attrs :=
  let (x1, y1, x2, y2) := bbox
  let (loMin, laMin, loMax, laMax, loRes, laRes) :=
    if crs.isGeographic then
      (x1, y1, x2, y2, res.1, res.2)
    else
      let xm1 := (x1 + x2) / 2
      let ym1 := (y1 + y2) / 2
      let xm2 := xm1 + res.1
      let ym2 := ym1 + res.2
      let pMin := crs.toCrs84 (x1, y1)
      let pMax := crs.toCrs84 (x2, y2)
      let pM1 := crs.toCrs84 (xm1, ym1)
      let pM2 := crs.toCrs84 (xm2, ym2)
      (pMin.1, pMin.2, pMax.1, pMax.2, |pM2.1 - pM1.1|, |pM2.2 - pM1.2|)
  [("geospatial_lon_units", .str "degrees_east"),
   ("geospatial_lon_min", .num loMin),
   ("geospatial_lon_max", .num loMax),
   ("geospatial_lon_resolution", .num loRes),
   ("geospatial_lat_units", .str "degrees_north"),
   ("geospatial_lat_min", .num laMin),
   ("geospatial_lat_max", .num laMax),
   ("geospatial_lat_resolution", .num laRes),
   ("geospatial_bounds_crs", .str "CRS84"),
   ("geospatial_bounds", .bbox loMin laMin loMax laMax)]

/-- `get_time_coverage_attrs(time_range, time_period)`: start/end carry the
boundary instants (string formatting of timestamps elided), the resolution
carries the frequency string, the duration the difference of the range
ends. -/
def get_time_coverage_attrs (timeRange : ℤ × ℤ) (timePeriod : String) : Attrs :=
  [("time_coverage_start", .num (timeRange.1 : ℚ)),
   ("time_coverage_end", .num (timeRange.2 : ℚ)),
   ("time_coverage_resolution", .str timePeriod),
   ("time_coverage_duration", .num ((timeRange.2 - timeRange.1 : ℤ) : ℚ))]

/-- `pandas.date_range(start, periods, freq)` for a fixed-duration frequency
string: `periods` instants starting at `start`, spaced by the frequency's
duration `step` (instants counted in the frequency's base unit; the string
parsing done by pandas is modelled by passing the duration directly). -/
def date_range (start : ℤ) (periods : Nat) (step : ℤ) : List ℤ :=
  (List.range periods).map (fun (i : Nat) => start + (i : ℤ) * step)

/-- `xarray.cftime_range(start, periods, freq, calendar)`: under the
fixed-duration frequency model the calendar-aware instants are the same
equally spaced sequence. -/
def cftime_range (start : ℤ) (periods : Nat) (step : ℤ) : List ℤ :=
  (List.range periods).map (fun (i : Nat) => start + (i : ℤ) * step)

/-- dataset.py lines 165–177: the boundary instants `time_data_p1` (either
representation) and the center instants
`time_data = time_data_p1[0:-1] + time_delta // 2` where
`time_delta = time_data_p1[1] - time_data_p1[0]` — that indexing raises
`IndexError` when fewer than two boundary instants exist.  `//` on
timedeltas is floor division (`Int.fdiv`). -/
def timeAxisData (useCf : Bool) (start : ℤ) (periods : Nat) (step : ℤ) :
    Except String (List ℤ × List ℤ) := do
  let p1 := if useCf then cftime_range start (periods + 1) step
            else date_range start (periods + 1) step
  let t0 ← match p1[0]? with
    | some t => .ok t
    | none => .error "IndexError: index 0 is out of bounds"
  let t1 ← match p1[1]? with
    | some t => .ok t
    | none => .error "IndexError: index 1 is out of bounds"
  let timeDelta := t1 - t0
  .ok (p1, p1.dropLast.map (fun t => t + Int.fdiv timeDelta 2))

/-- dataset.py lines 142–145: the cell-center array of one spatial axis,
`np.linspace(start + res/2, end - res/2, size)` with
`end = start + size * res`. -/
def centersData (start res : ℚ) (size : Nat) : List ℚ :=
  linspace (start + (1/2) * res) ((start + size * res) - (1/2) * res) size

/-- dataset.py lines 190–194: the x bounds array; column 0 is
`np.linspace(x_start, x_end - x_res, width)`, column 1 is
`np.linspace(x_start + x_res, x_end, width)`. -/
def xBndsData (xStart xRes : ℚ) (width : Nat) : List (ℚ × ℚ) :=
  let xEnd := xStart + width * xRes
  (linspace xStart (xEnd - xRes) width).zip
    (linspace (xStart + xRes) xEnd width)

/-- dataset.py lines 195–199: the y bounds array.  The source computes both
columns with `x_res` (not `y_res`): column 0 is
`np.linspace(y_start, y_end - x_res, height)`, column 1 is
`np.linspace(y_start + x_res, y_end, height)`, with
`y_end = y_start + height * y_res`. -/
def yBndsData (yStart yRes xRes : ℚ) (height : Nat) : List (ℚ × ℚ) :=
  let yEnd := yStart + height * yRes
  (linspace yStart (yEnd - xRes) height).zip
    (linspace (yStart + xRes) yEnd height)

/-- A data-variable declaration: the 3-tuple items of the `variables`
parameter (name, numpy dtype, metadata). -/
structure VarSpec where
  name : String
  dtype : String
  attrs : Attrs

/-- The parameters of `new_dataset`, after the scalar-to-pair broadcasting
of its first lines (`xy_size`, `xy_units`, `xy_res` given as scalars are
duplicated into pairs; a `crs` string is parsed by pyproj).  Defaults mirror
the source signature.  `timeRes` is the frequency string and `timeStep` its
duration in the base unit, `timeStart` the start instant in the same unit
(the pandas parsing of both strings is modelled by these numbers; defaults:
one day in seconds, 2010-01-01T00:00:00 in epoch seconds). -/
structure Config where
  width : Nat := 3600
  height : Nat := 1800
  xyTileSize : Option (Nat × Nat) := none
  xName : String := "lon"
  yName : String := "lat"
  xUnits : String := "degrees_east"
  yUnits : String := "degrees_north"
  xRes : ℚ := 360 / 3600
  yRes : ℚ := 360 / 3600
  xStart : ℚ := -180
  yStart : ℚ := -90
  inverseY : Bool := false
  timeName : String := "time"
  timeDtype : Option String := some "datetime64[s]"
  timeUnits : String := "seconds since 1970-01-01T00:00:00"
  timeCalendar : String := "proleptic_gregorian"
  timePeriods : Nat := 5
  timeRes : String := "1D"
  timeStep : ℤ := 86400
  timeStart : ℤ := 1262304000
  useCftime : Bool := false
  dropBounds : Bool := false
  varSpecs : List VarSpec := []   -- the `variables` parameter
  crs : Option CRSModel := none
  metadata : Option Attrs := none

/-- `new_dataset`.  Faithful points worth naming:

* the `use_cftime`/`time_dtype` conflict raises `ValueError` before anything
  is built (source lines 123–125);
* the y bounds are computed with `x_res` (source lines 196–199, via
  `yBndsData`);
* the `bounds` attribute is attached to the coordinate variables only when
  bounds are generated;
* the time variable's `units`/`calendar` go to its xarray `encoding`, not to
  its `attrs`, so its `attrs` carry only `bounds` (when generated);
* the loop over `variables` (source line 250) rebinds the Python name
  `attrs`, so when `variables` is non-empty the global attributes passed to
  `xr.Dataset` are the last declared variable's attribute dict (with
  `grid_mapping` added when a CRS is present), not the merged global map;
* data-variable arrays are zero-filled of shape (time, y, x); the values
  play no role in any rule and are elided;
* `dataset.chunk(...)` only attaches chunking hints, which no rule
  inspects; the chunked dataset has the same variables and attributes.

The variables mapping lists coordinates first, then data variables; no
theorem below depends on that order. -/
def new_dataset (cfg : Config) : Except String Dataset := do
  if cfg.useCftime && cfg.timeDtype.isSome then
    throw "ValueError: If use_cftime is True, time_dtype must not be set."
  let xEnd := cfg.xStart + cfg.width * cfg.xRes
  let yEnd := cfg.yStart + cfg.height * cfg.yRes
  let xData := centersData cfg.xStart cfg.xRes cfg.width
  let yData0 := centersData cfg.yStart cfg.yRes cfg.height
  let yData := if cfg.inverseY then yData0.reverse else yData0
  let xIsLon := cfg.xName == "lon" || cfg.xUnits == "degrees_east"
  let yIsLat := cfg.yName == "lat" || cfg.yUnits == "degrees_north"
  let xAttrs : Attrs :=
    ("units", .str cfg.xUnits) ::
    (if xIsLon then
       [("long_name", .str "longitude"), ("standard_name", .str "longitude")]
     else
       [("long_name", .str "x coordinate of projection"),
        ("standard_name", .str "projection_x_coordinate")])
  let yAttrs : Attrs :=
    ("units", .str cfg.yUnits) ::
    (if yIsLat then
       [("long_name", .str "latitude"), ("standard_name", .str "latitude")]
     else
       [("long_name", .str "y coordinate of projection"),
        ("standard_name", .str "projection_y_coordinate")])
  let td ← timeAxisData cfg.useCftime cfg.timeStart cfg.timePeriods cfg.timeStep
  let timeDataP1 := td.1
  let timeData := td.2
  let t0 := timeDataP1.head?.getD 0      -- nonempty: timeAxisData indexed it
  let tLast := timeDataP1.getLast?.getD 0
  let xBndsName := cfg.xName ++ "_bnds"
  let yBndsName := cfg.yName ++ "_bnds"
  let timeBndsName := cfg.timeName ++ "_bnds"
  let xAttrsF := if cfg.dropBounds then xAttrs
                 else xAttrs ++ [("bounds", .str xBndsName)]
  let yAttrsF := if cfg.dropBounds then yAttrs
                 else yAttrs ++ [("bounds", .str yBndsName)]
  let timeAttrsF : Attrs := if cfg.dropBounds then []
                 else [("bounds", .str timeBndsName)]
  let xVar : Variable := { dims := [cfg.xName], attrs := xAttrsF, values := xData }
  let yVar : Variable := { dims := [cfg.yName], attrs := yAttrsF, values := yData }
  let timeVar : Variable :=
    { dims := [cfg.timeName], attrs := timeAttrsF,
      values := timeData.map (fun (t : ℤ) => (t : ℚ)) }
  let coords : List (String × Variable) :=
    [(cfg.xName, xVar), (cfg.yName, yVar), (cfg.timeName, timeVar)] ++
    (if cfg.dropBounds then []
     else
       let xBnds := xBndsData cfg.xStart cfg.xRes cfg.width
       let yBnds0 := yBndsData cfg.yStart cfg.yRes cfg.xRes cfg.height
       let yBnds := if cfg.inverseY then (yBnds0.map Prod.swap).reverse
                    else yBnds0
       let timeBnds := timeDataP1.dropLast.zip timeDataP1.tail
       [(xBndsName,
         { dims := [cfg.xName, "bnds"], attrs := [("units", .str cfg.xUnits)],
           values2 := xBnds }),
        (yBndsName,
         { dims := [cfg.yName, "bnds"], attrs := [("units", .str cfg.yUnits)],
           values2 := yBnds }),
        (timeBndsName,
         { dims := [cfg.timeName, "bnds"], attrs := [],
           values2 := timeBnds.map (fun (p : ℤ × ℤ) => ((p.1 : ℚ), (p.2 : ℚ))) })])
  let attrs1 := dictUpdate DEFAULT_METADATA (cfg.metadata.getD [])
  let attrs2 := dictUpdate attrs1
    (get_geospatial_attrs (cfg.xStart, cfg.yStart, xEnd, yEnd)
      (cfg.xRes, cfg.yRes) (cfg.crs.getD CRS_CRS84))
  let attrs3 := dictUpdate attrs2 (get_time_coverage_attrs (t0, tLast) cfg.timeRes)
  let gridMapping : Attrs :=
    if cfg.crs.isSome then [("grid_mapping", .str "crs")] else []
  let dataVars : List (String × Variable) :=
    cfg.varSpecs.map (fun vs =>
      (vs.name,
       { dims := [cfg.timeName, cfg.yName, cfg.xName],
         attrs := dictUpdate vs.attrs gridMapping }))
  let crsVars : List (String × Variable) :=
    match cfg.crs with
    | some c => [("crs", { dims := [], attrs := c.cf })]
    | none => []
  -- the Python-name rebinding of `attrs` by the variables loop:
  let attrsFinal :=
    match cfg.varSpecs.getLast? with
    | some vs => dictUpdate vs.attrs gridMapping
    | none => attrs3
  .ok { vars := coords ++ dataVars ++ crsVars, attrs := attrsFinal }

/-- `verify_dataset(new_dataset(cfg), level)`: the round trip of the
generator into the validator. -/
def roundTrip (cfg : Config) (level : String) : Except String (List Issue) :=
  (new_dataset cfg).bind (fun ds => verify_dataset ds level)

/-! ## Arithmetic-sequence infrastructure

`linspace`, `date_range`, `cftime_range` and the center/bounds arrays built
from them are all arithmetic progressions; the lemmas below characterise
them once and are reused across the claims. -/

/-- The arithmetic progression `a, a + s, …, a + (n-1)·s`. -/
def arithSeq {α : Type} [CommRing α] (a s : α) (n : Nat) : List α :=
  (List.range n).map (fun (i : Nat) => a + (i : α) * s)

theorem arithSeq_zero {α : Type} [CommRing α] (a s : α) :
    arithSeq a s 0 = [] := rfl

theorem arithSeq_succ {α : Type} [CommRing α] (a s : α) (n : Nat) :
    arithSeq a s (n + 1) = a :: arithSeq (a + s) s n := by
  unfold arithSeq
  rw [List.range_succ_eq_map, List.map_cons, List.map_map]
  simp only [Nat.cast_zero, zero_mul, add_zero, List.cons.injEq, true_and]
  apply List.map_congr_left
  intro i _
  simp only [Function.comp_apply, Nat.cast_succ]
  ring

theorem arithSeq_length {α : Type} [CommRing α] (a s : α) (n : Nat) :
    (arithSeq a s n).length = n := by
  simp [arithSeq]

theorem arithSeq_getElem? {α : Type} [CommRing α] (a s : α) {n : Nat}
    (i : Nat) (h : i < n) :
    (arithSeq a s n)[i]? = some (a + (i : α) * s) := by
  simp [arithSeq, List.getElem?_map, List.getElem?_range, h]

theorem arithSeq_one_eq {α : Type} [CommRing α] (a s s' : α) :
    arithSeq a s 1 = arithSeq a s' 1 := by
  rw [arithSeq_succ, arithSeq_succ, arithSeq_zero, arithSeq_zero]

theorem arithSeq_dropLast {α : Type} [CommRing α] (a s : α) (n : Nat) :
    (arithSeq a s (n + 1)).dropLast = arithSeq a s n := by
  unfold arithSeq
  rw [List.range_succ, List.map_append, List.map_singleton,
    List.dropLast_concat]

theorem arithSeq_tail {α : Type} [CommRing α] (a s : α) (n : Nat) :
    (arithSeq a s (n + 1)).tail = arithSeq (a + s) s n := by
  rw [arithSeq_succ, List.tail_cons]

theorem arithSeq_map_add {α : Type} [CommRing α] (a s c : α) (n : Nat) :
    (arithSeq a s n).map (fun t => t + c) = arithSeq (a + c) s n := by
  unfold arithSeq
  rw [List.map_map]
  apply List.map_congr_left
  intro i _
  simp only [Function.comp_apply]
  ring

theorem arithSeq_map_cast (a s : ℤ) (n : Nat) :
    (arithSeq a s n).map (fun (t : ℤ) => (t : ℚ)) = arithSeq (a : ℚ) (s : ℚ) n := by
  unfold arithSeq
  rw [List.map_map]
  apply List.map_congr_left
  intro i _
  simp only [Function.comp_apply]
  push_cast
  ring

theorem diffs_cons_cons (x y : ℚ) (l : List ℚ) :
    diffs (x :: y :: l) = (y - x) :: diffs (y :: l) := rfl

theorem diffs_arithSeq (a s : ℚ) (n : Nat) :
    diffs (arithSeq a s n) = List.replicate (n - 1) s := by
  induction n generalizing a with
  | zero => rfl
  | succ m ih =>
    rw [arithSeq_succ]
    match m, ih with
    | 0, _ => rfl
    | m' + 1, ih =>
      rw [arithSeq_succ, diffs_cons_cons, ← arithSeq_succ, ih]
      simp only [Nat.add_sub_cancel, List.replicate_succ, List.cons.injEq,
        and_true]
      ring

theorem allPos_replicate {s : ℚ} (h : 0 < s) (m : Nat) :
    allPos (List.replicate m s) = true := by
  simp only [allPos, List.all_eq_true, List.mem_replicate, decide_eq_true_eq]
  rintro q ⟨-, rfl⟩
  exact h

theorem allPos_diffs_arithSeq {s : ℚ} (h : 0 < s) (a : ℚ) (n : Nat) :
    allPos (diffs (arithSeq a s n)) = true := by
  rw [diffs_arithSeq]; exact allPos_replicate h _

theorem chain'_lt_arithSeq {s : ℚ} (h : 0 < s) (a : ℚ) (n : Nat) :
    List.Chain' (· < ·) (arithSeq a s n) := by
  induction n generalizing a with
  | zero => simp [arithSeq_zero]
  | succ m ih =>
    rw [arithSeq_succ]
    match m, ih with
    | 0, _ => simp [arithSeq_zero]
    | m' + 1, ih =>
      rw [arithSeq_succ, List.chain'_cons, ← arithSeq_succ]
      exact ⟨by linarith, ih (a + s)⟩

theorem linspace_eq_arithSeq (a b : ℚ) (n : Nat) :
    linspace a b n = arithSeq a ((b - a) / ((n : ℚ) - 1)) n := by
  rcases eq_or_ne n 1 with h1 | h1
  · subst h1
    rw [arithSeq_succ, arithSeq_zero]
    rfl
  · rw [linspace, if_neg (by simpa using h1)]
    rfl

theorem centersData_eq_arithSeq (start res : ℚ) (n : Nat) :
    centersData start res n = arithSeq (start + (1/2) * res) res n := by
  unfold centersData
  rw [linspace_eq_arithSeq]
  match n with
  | 0 => rfl
  | 1 => exact arithSeq_one_eq _ _ _
  | m + 2 =>
    congr 1
    have hne : ((m + 2 : ℕ) : ℚ) - 1 ≠ 0 := by
      push_cast; intro hc; nlinarith [Nat.cast_nonneg (α := ℚ) m]
    rw [div_eq_iff hne]
    push_cast
    ring

theorem exceptBind_ok {ε α β : Type} (a : α) (f : α → Except ε β) :
    (Except.ok a >>= f) = f a := rfl

theorem exceptBind_error {ε α β : Type} (e : ε) (f : α → Except ε β) :
    ((Except.error e : Except ε α) >>= f) = .error e := rfl

theorem cftime_range_eq_arithSeq (start : ℤ) (n : Nat) (step : ℤ) :
    cftime_range start n step = arithSeq start step n := rfl

theorem date_range_eq_arithSeq (start : ℤ) (n : Nat) (step : ℤ) :
    date_range start n step = arithSeq start step n := rfl

/-- Characterisation of the time-axis computation when at least one period
is requested: the boundary instants are `t0, t0+s, …, t0+periods·s` and the
centers are the boundaries of the first `periods` cells shifted by `s.fdiv 2`
(`time_delta // 2`, where `time_delta` is the first step). -/
theorem timeAxisData_eq {periods : Nat} (h : 1 ≤ periods) (u : Bool)
    (t0 s : ℤ) :
    timeAxisData u t0 periods s =
      .ok (arithSeq t0 s (periods + 1),
           arithSeq (t0 + Int.fdiv s 2) s periods) := by
  obtain ⟨m, rfl⟩ : ∃ m, periods = m + 1 :=
    ⟨periods - 1, (Nat.succ_pred_eq_of_pos h).symm⟩
  have hp1 : (if u then cftime_range t0 (m + 1 + 1) s
              else date_range t0 (m + 1 + 1) s) = arithSeq t0 s (m + 1 + 1) := by
    cases u <;> simp [cftime_range_eq_arithSeq, date_range_eq_arithSeq]
  have h0 : (arithSeq t0 s (m + 1 + 1))[0]? = some t0 := by
    rw [arithSeq_getElem? t0 s 0 (by omega)]
    norm_num
  have h1 : (arithSeq t0 s (m + 1 + 1))[1]? = some (t0 + s) := by
    rw [arithSeq_getElem? t0 s 1 (by omega)]
    norm_num
  rw [timeAxisData, hp1, h0, h1]
  show Except.ok (arithSeq t0 s (m + 1 + 1),
      ((arithSeq t0 s (m + 1 + 1)).dropLast).map
        (fun t => t + (t0 + s - t0).fdiv 2)) = _
  rw [arithSeq_dropLast]
  have hs : t0 + s - t0 = s := by ring
  rw [hs, arithSeq_map_add]

/-! ## Claims -/

/-- **C1** (code evaluation at the failing input).  The y-axis bounds are
computed from `x_res` (dataset.py lines 196–199), so with
`y_start = 0`, `y_res = 2`, `x_res = 1` and `height = 2` the generated
y bounds are `[(0, 1), (3, 4)]` instead of the specified
`[(0, 2), (2, 4)]`, and adjacent cells are not contiguous
(`bounds[0][1] = 1 ≠ 3 = bounds[1][0]`); the x bounds at the matching
sample (`x_start = 0`, `x_res = 1`, `width = 2`) do follow the specified
formula. -/
theorem C1_y_bounds_built_from_x_res :
    xBndsData 0 1 2 = [(0, 1), (1, 2)] ∧
    yBndsData 0 2 1 2 = [(0, 1), (3, 4)] ∧
    yBndsData 0 2 1 2 ≠ [(0, 2), (2, 4)] ∧
    ((yBndsData 0 2 1 2)[0]?.map Prod.snd ≠ (yBndsData 0 2 1 2)[1]?.map Prod.fst) := by
  have hx : xBndsData 0 1 2 = [(0, 1), (1, 2)] := by
    unfold xBndsData linspace
    norm_num [List.range_succ]
  have hy : yBndsData 0 2 1 2 = [(0, 1), (3, 4)] := by
    unfold yBndsData linspace
    norm_num [List.range_succ]
  refine ⟨hx, hy, ?_, ?_⟩
  · rw [hy]
    intro hc
    simp only [List.cons.injEq, Prod.mk.injEq] at hc
    norm_num at hc
  · rw [hy]
    intro hc
    simp only [List.getElem?_cons_zero, List.getElem?_cons_succ] at hc
    norm_num at hc

/-- **C2** (code evaluation at the failing input).  On a dataset with no
`time` variable at all, `_check_variable` does produce the ERROR issue
about the missing variable, but `verify_dataset` never returns it: the
unguarded `ds['time']` lookup reached through `_check_mono_inc` and
`_check_1d_coord` raises `KeyError`, so validation aborts with an
exception instead of returning the collected issues. -/
theorem C2_missing_time_raises_keyerror :
    checkVariable ⟨[], []⟩ "time" = [(ERROR, "missing variable time")] ∧
    verify_dataset ⟨[], []⟩ ERROR = .error "KeyError: time" ∧
    verify_dataset ⟨[], []⟩ WARNING = .error "KeyError: time" := by
  refine ⟨rfl, rfl, rfl⟩

/-- **C3** (code evaluation at the failing input).  With 2-D `lon` and
`lat` whose dimensions are both exactly `('y', 'x')`, `check_xy_coords`
emits a dimension-order ERROR for `lat` — the comparison on verify.py
line 163 is `==` where the rule demands `!=` — contradicting the claim
that no ERROR is emitted when the dimensions are correctly ordered. -/
theorem C3_correct_2d_latlon_flagged :
    check_xy_coords
      ⟨[("lon", { dims := ["y", "x"],
                  attrs := [("standard_name", .str "longitude"),
                            ("units", .str "degrees_east")] }),
        ("lat", { dims := ["y", "x"],
                  attrs := [("standard_name", .str "latitude"),
                            ("units", .str "degrees_north")] })], []⟩ =
      .ok [(ERROR, "dimensions of lat must be (y, x)")] := by
  rfl

/-- **C10**: requesting both time representations (`use_cftime = True`
while `time_dtype` is set) makes `new_dataset` fail with `ValueError`
before any dataset is built. -/
theorem C10_both_time_representations_rejected (cfg : Config)
    (h1 : cfg.useCftime = true) (h2 : cfg.timeDtype ≠ none) :
    new_dataset cfg =
      .error "ValueError: If use_cftime is True, time_dtype must not be set." := by
  have h2' : cfg.timeDtype.isSome = true := Option.ne_none_iff_isSome.mp h2
  rw [new_dataset]
  simp [h1, h2', throw, throwThe, MonadExceptOf.throw, exceptBind_error]

/-- **C10 witness**: the conflict at a concrete configuration (default
`time_dtype`, `use_cftime` switched on). -/
theorem C10_witness :
    new_dataset { useCftime := true } =
      .error "ValueError: If use_cftime is True, time_dtype must not be set." :=
  C10_both_time_representations_rejected { useCftime := true } rfl (by simp)

theorem centersData_zero (start res : ℚ) : centersData start res 0 = [] := rfl

/-- **C6 counterexample**: with `x_res = 0` and `y_res = -1` — both
non-positive — `new_dataset` still succeeds; no invalid-parameter error is
raised for non-positive resolutions anywhere in the source. -/
theorem C6_cex_nonpositive_resolution_accepted :
    ∃ ds, new_dataset
      { width := 2, height := 2, xRes := 0, yRes := -1, timePeriods := 1 } =
      .ok ds :=
  ⟨_, rfl⟩

/-- **C6 amended**: `size == 0` is legal and yields empty coordinate
arrays, but `resolution <= 0` is *not* rejected: for every configuration
that passes the `use_cftime`/`time_dtype` check and requests at least one
time period — with no constraint whatsoever on the resolutions —
construction succeeds, and a zero-sized axis yields an empty center
array. -/
theorem C6_size_zero_legal_resolution_unchecked (cfg : Config)
    (hc : (cfg.useCftime && cfg.timeDtype.isSome) = false)
    (hp : 1 ≤ cfg.timePeriods) :
    ∃ ds, new_dataset cfg = .ok ds ∧
      (∃ v, ds.get cfg.xName = some v ∧
        v.values = centersData cfg.xStart cfg.xRes cfg.width) ∧
      (cfg.width = 0 →
        ∃ v, ds.get cfg.xName = some v ∧ v.values = []) := by
  rw [new_dataset]
  simp only [hc, Bool.false_eq_true, if_false, timeAxisData_eq hp,
    exceptBind_ok]
  refine ⟨_, rfl, ?_, ?_⟩
  · simp only [Dataset.get, List.cons_append, List.append_assoc, lookupVar,
      beq_self_eq_true, if_true]
    exact ⟨_, rfl, rfl⟩
  · intro hw
    simp only [Dataset.get, List.cons_append, List.append_assoc, lookupVar,
      beq_self_eq_true, if_true]
    exact ⟨_, rfl, by rw [hw, centersData_zero]⟩

/-- **C6 witness**: a zero-width, zero-height configuration with a negative
x resolution is accepted and its x center array is empty. -/
theorem C6_witness :
    ∃ ds, new_dataset
        { width := 0, height := 0, xRes := -1, timePeriods := 1 } = .ok ds ∧
      (∃ v, ds.get "lon" = some v ∧
        v.values = centersData (-180) (-1) 0) ∧
      ((0 : Nat) = 0 → ∃ v, ds.get "lon" = some v ∧ v.values = []) :=
  C6_size_zero_legal_resolution_unchecked
    { width := 0, height := 0, xRes := -1, timePeriods := 1 } rfl (le_refl 1)

/-- **C8 counterexample**: with zero periods the time-axis computation does
not produce the `0 + 1` boundary instants of a generated axis — it fails
with `IndexError` (dataset.py line 176 indexes `time_data_p1[1]`), and so
does the whole of `new_dataset`. -/
theorem C8_cex_zero_periods_indexerror :
    timeAxisData false 0 0 86400 = .error "IndexError: index 1 is out of bounds" ∧
    new_dataset { timePeriods := 0 } =
      .error "IndexError: index 1 is out of bounds" :=
  ⟨rfl, rfl⟩

/-- **C8 amended**: for every step, every period count of at least one, and
either time representation, the time axis has `periods + 1` boundary
instants spaced by the step, and every center instant is the midpoint —
with floor integer division — of its own consecutive boundary pair. -/
theorem C8_boundaries_and_midpoints (u : Bool) (t0 s : ℤ) (periods : Nat)
    (h : 1 ≤ periods) :
    ∃ p1 ctr, timeAxisData u t0 periods s = .ok (p1, ctr) ∧
      p1.length = periods + 1 ∧ ctr.length = periods ∧
      ∀ i, i < periods →
        ∃ a b, p1[i]? = some a ∧ p1[i + 1]? = some b ∧
          b - a = s ∧ ctr[i]? = some (Int.fdiv (a + b) 2) := by
  refine ⟨_, _, timeAxisData_eq h u t0 s, arithSeq_length _ _ _,
    arithSeq_length _ _ _, ?_⟩
  intro i hi
  refine ⟨t0 + (i : ℤ) * s, t0 + ((i : ℤ) + 1) * s, ?_, ?_, by ring, ?_⟩
  · exact arithSeq_getElem? t0 s i (by omega)
  · rw [arithSeq_getElem? t0 s (i + 1) (by omega)]
    push_cast
    ring_nf
  · rw [arithSeq_getElem? _ s i hi]
    congr 1
    have hmid : t0 + (i : ℤ) * s + (t0 + ((i : ℤ) + 1) * s) =
        s + (t0 + (i : ℤ) * s) * 2 := by ring
    rw [hmid, Int.fdiv_eq_ediv _ (by norm_num), Int.fdiv_eq_ediv _ (by norm_num),
      Int.add_mul_ediv_right _ _ (by norm_num : (2 : ℤ) ≠ 0)]
    ring

/-- **C8 witness**: one period of step 2 starting at 0: boundaries `[0, 2]`
and center `[1]`, the floor midpoint of its pair. -/
theorem C8_witness :
    ∃ p1 ctr, timeAxisData false 0 1 2 = .ok (p1, ctr) ∧
      p1.length = 1 + 1 ∧ ctr.length = 1 ∧
      ∀ i : Nat, i < 1 →
        ∃ a b, p1[i]? = some a ∧ p1[i + 1]? = some b ∧
          b - a = 2 ∧ ctr[i]? = some (Int.fdiv (a + b) 2) :=
  C8_boundaries_and_midpoints false 0 2 1 (le_refl 1)

/-- **C9**: for `resolution > 0` and `size ≥ 1` the center array has
exactly `size` entries, entry `i` is `start + resolution * (i + 1/2)`, the
array is strictly increasing, and its reversal — the y axis under
`inverse_y` — is strictly decreasing. -/
theorem C9_center_array (start res : ℚ) (size : Nat) (hres : 0 < res)
    (hsize : 1 ≤ size) :
    (centersData start res size).length = size ∧
    (∀ i, i < size →
      (centersData start res size)[i]? =
        some (start + res * ((i : ℚ) + 1/2))) ∧
    List.Chain' (· < ·) (centersData start res size) ∧
    List.Chain' (· > ·) ((centersData start res size).reverse) := by
  have h3 := chain'_lt_arithSeq hres (start + (1/2) * res) size
  rw [centersData_eq_arithSeq]
  refine ⟨arithSeq_length _ _ _, ?_, h3, ?_⟩
  · intro i hi
    rw [arithSeq_getElem? _ _ i hi]
    congr 1
    ring
  · rw [List.chain'_reverse]
    exact h3

/-- **C9 witness**: the unit axis `start = 0`, `res = 1`, `size = 1`. -/
theorem C9_witness :
    (centersData 0 1 1).length = 1 ∧
    (∀ i : Nat, i < 1 →
      (centersData 0 1 1)[i]? = some (0 + 1 * ((i : ℚ) + 1/2))) ∧
    List.Chain' (· < ·) (centersData 0 1 1) ∧
    List.Chain' (· > ·) ((centersData 0 1 1).reverse) :=
  C9_center_array 0 1 1 zero_lt_one (le_refl 1)

/-! ### Lookup lemmas for the attribute merge -/

theorem lookupAttr_append (d u : Attrs) (k : String) :
    lookupAttr (d ++ u) k =
      match lookupAttr d k with
      | some v => some v
      | none => lookupAttr u k := by
  induction d with
  | nil => rfl
  | cons kv rest ih =>
    rw [List.cons_append, lookupAttr, lookupAttr]
    by_cases h : (kv.1 == k) = true
    · rw [if_pos h, if_pos h]
    · rw [if_neg h, if_neg h, ih]

theorem lookupAttr_eq_none_of_hasKey_false {u : Attrs} {k : String}
    (h : hasKey u k = false) : lookupAttr u k = none := by
  induction u with
  | nil => rfl
  | cons kv rest ih =>
    simp only [hasKey, List.any_cons, Bool.or_eq_false_iff] at h
    rw [lookupAttr, if_neg (by simp [h.1]), ih]
    simp only [hasKey, h.2]

theorem hasKey_eq_true_of_lookupAttr {u : Attrs} {k : String} {v : AttrVal}
    (h : lookupAttr u k = some v) : hasKey u k = true := by
  by_cases hk : hasKey u k = true
  · exact hk
  · rw [lookupAttr_eq_none_of_hasKey_false (by simpa using hk)] at h
    cases h

theorem lookupAttr_filter_out {u : Attrs} {k : String}
    (h : hasKey u k = true) (d : Attrs) :
    lookupAttr (d.filter (fun kv => !(hasKey u kv.1))) k = none := by
  induction d with
  | nil => rfl
  | cons kv rest ih =>
    rw [List.filter_cons]
    cases hkv : (!(hasKey u kv.1)) with
    | false =>
      rw [if_neg (by simp)]
      exact ih
    | true =>
      rw [if_pos rfl, lookupAttr]
      cases hb : (kv.1 == k) with
      | false =>
        rw [if_neg (by simp [hb])]
        exact ih
      | true =>
        exfalso
        rw [Bool.not_eq_true'] at hkv
        rw [beq_iff_eq] at hb
        rw [hb, h] at hkv
        simp at hkv

/-- The updating dict wins for its own keys. -/
theorem dictUpdate_lookup_right (d u : Attrs) (k : String)
    (h : hasKey u k = true) :
    lookupAttr (dictUpdate d u) k = lookupAttr u k := by
  rw [dictUpdate, lookupAttr_append, lookupAttr_filter_out h d]

/-- Keys absent from the updating dict keep their old binding. -/
theorem dictUpdate_lookup_left (d u : Attrs) (k : String)
    (h : hasKey u k = false) :
    lookupAttr (dictUpdate d u) k = lookupAttr d k := by
  rw [dictUpdate, lookupAttr_append]
  induction d with
  | nil =>
    simp only [List.filter_nil, lookupAttr]
    rw [lookupAttr_eq_none_of_hasKey_false h]
  | cons kv rest ih =>
    rw [List.filter_cons]
    cases hkv : (!(hasKey u kv.1)) with
    | true =>
      rw [if_pos rfl, lookupAttr, lookupAttr]
      by_cases hk : (kv.1 == k) = true
      · rw [if_pos hk, if_pos hk]
      · rw [if_neg hk, if_neg hk]
        exact ih
    | false =>
      rw [if_neg (by simp), lookupAttr]
      have hne : (kv.1 == k) = false := by
        cases hb : (kv.1 == k) with
        | false => rfl
        | true =>
          exfalso
          have hkv' : hasKey u kv.1 = true := by simpa using hkv
          rw [beq_iff_eq] at hb
          rw [hb, h] at hkv'
          simp at hkv'
      rw [if_neg (by simp [hne])]
      exact ih

/-- The attribute keys written by `get_geospatial_attrs` and
`get_time_coverage_attrs` after the two-stage default/caller merge — the
exclusion set of the amended merge claim. -/
def GENERATED_ATTR_KEYS : List String :=
  ["geospatial_lon_units", "geospatial_lon_min", "geospatial_lon_max",
   "geospatial_lon_resolution", "geospatial_lat_units", "geospatial_lat_min",
   "geospatial_lat_max", "geospatial_lat_resolution", "geospatial_bounds_crs",
   "geospatial_bounds", "time_coverage_start", "time_coverage_end",
   "time_coverage_resolution", "time_coverage_duration"]

theorem hasKey_geospatial_false (bbox : ℚ × ℚ × ℚ × ℚ) (res : ℚ × ℚ)
    (crs : CRSModel) {k : String}
    (h1 : k ≠ "geospatial_lon_units") (h2 : k ≠ "geospatial_lon_min")
    (h3 : k ≠ "geospatial_lon_max") (h4 : k ≠ "geospatial_lon_resolution")
    (h5 : k ≠ "geospatial_lat_units") (h6 : k ≠ "geospatial_lat_min")
    (h7 : k ≠ "geospatial_lat_max") (h8 : k ≠ "geospatial_lat_resolution")
    (h9 : k ≠ "geospatial_bounds_crs") (h10 : k ≠ "geospatial_bounds") :
    hasKey (get_geospatial_attrs bbox res crs) k = false := by
  obtain ⟨x1, y1, x2, y2⟩ := bbox
  cases hgeo : crs.isGeographic <;>
    simp [get_geospatial_attrs, hasKey, hgeo, beq_eq_false_iff_ne,
      Ne.symm h1, Ne.symm h2, Ne.symm h3, Ne.symm h4, Ne.symm h5,
      Ne.symm h6, Ne.symm h7, Ne.symm h8, Ne.symm h9, Ne.symm h10]

theorem hasKey_time_coverage_false (tr : ℤ × ℤ) (p : String) {k : String}
    (h1 : k ≠ "time_coverage_start") (h2 : k ≠ "time_coverage_end")
    (h3 : k ≠ "time_coverage_resolution") (h4 : k ≠ "time_coverage_duration") :
    hasKey (get_time_coverage_attrs tr p) k = false := by
  simp [get_time_coverage_attrs, hasKey, beq_eq_false_iff_ne,
    Ne.symm h1, Ne.symm h2, Ne.symm h3, Ne.symm h4]

/-- **C4 counterexample**: the caller supplies
`metadata = {geospatial_lon_units: "foo"}`, yet the returned dataset maps
that key to the generated value `"degrees_east"` — the geospatial/time
attributes are merged *after* the caller's metadata and overwrite it, so
the caller does not always win in the final attribute map. -/
theorem C4_cex_generated_attrs_overwrite_caller :
    ∃ ds, new_dataset
        { width := 0, height := 0, timePeriods := 1,
          metadata := some [("geospatial_lon_units", .str "foo")] } = .ok ds ∧
      lookupAttr ds.attrs "geospatial_lon_units" =
        some (AttrVal.str "degrees_east") ∧
      AttrVal.str "degrees_east" ≠ AttrVal.str "foo" :=
  ⟨_, rfl, rfl, by decide⟩

/-- **C4 amended**: when no data variables are declared (the `variables`
loop of the source rebinds the Python name `attrs`, discarding the merged
map otherwise), every caller-metadata key *outside the generated
geospatial/time-coverage attribute set* reaches the final attribute map
with the caller's value — in particular the caller overrides the library
defaults of `DEFAULT_METADATA`. -/
theorem C4_caller_wins_outside_generated_keys (cfg : Config) (m : Attrs)
    (k : String) (v : AttrVal)
    (hmeta : cfg.metadata = some m)
    (hvars : cfg.varSpecs = [])
    (hcf : (cfg.useCftime && cfg.timeDtype.isSome) = false)
    (hp : 1 ≤ cfg.timePeriods)
    (hlk : lookupAttr m k = some v)
    (hgen : k ∉ GENERATED_ATTR_KEYS) :
    ∃ ds, new_dataset cfg = .ok ds ∧ lookupAttr ds.attrs k = some v := by
  simp only [GENERATED_ATTR_KEYS, List.mem_cons, List.not_mem_nil, or_false,
    not_or] at hgen
  obtain ⟨g1, g2, g3, g4, g5, g6, g7, g8, g9, g10, g11, g12, g13, g14⟩ := hgen
  rw [new_dataset]
  simp only [hcf, Bool.false_eq_true, if_false, timeAxisData_eq hp,
    exceptBind_ok, hvars, hmeta]
  refine ⟨_, rfl, ?_⟩
  show lookupAttr (dictUpdate (dictUpdate
      (dictUpdate DEFAULT_METADATA ((some m).getD []))
      (get_geospatial_attrs _ _ _)) (get_time_coverage_attrs _ _)) k = some v
  rw [dictUpdate_lookup_left _ _ _
    (hasKey_time_coverage_false _ _ g11 g12 g13 g14)]
  rw [dictUpdate_lookup_left _ _ _
    (hasKey_geospatial_false _ _ _ g1 g2 g3 g4 g5 g6 g7 g8 g9 g10)]
  rw [dictUpdate_lookup_right _ _ _
    (hasKey_eq_true_of_lookupAttr (by simpa using hlk))]
  simpa using hlk

/-- **C4 witness**: the caller overrides the default `title`. -/
theorem C4_witness :
    ∃ ds, new_dataset
        { width := 0, height := 0, timePeriods := 1,
          metadata := some [("title", .str "mine")] } = .ok ds ∧
      lookupAttr ds.attrs "title" = some (AttrVal.str "mine") :=
  C4_caller_wins_outside_generated_keys
    { width := 0, height := 0, timePeriods := 1,
      metadata := some [("title", .str "mine")] }
    [("title", .str "mine")] "title" (AttrVal.str "mine")
    rfl rfl rfl (le_refl 1) rfl (by decide)

/-! ### C7: level filtering and rule order -/

/-- The spec's severity filter: `WARNING` reports everything, `ERROR`
reports errors only. -/
def specLevelFilter (level : String) (issues : List Issue) : List Issue :=
  if level != ERROR then issues
  else issues.filter (fun i => i.1 == ERROR)

/-- The spec's description of the engine: the concatenation, in the fixed
rule order `check_global_attrs`, `check_time_coord`, `check_xy_coords`, of
every rule's issues after filtering.  Stated from the spec's words, to be
compared with `verify_dataset`. -/
def specVerify (ds : Dataset) (level : String) : Except String (List Issue) := do
  let i2 ← check_time_coord ds
  let i3 ← check_xy_coords ds
  return specLevelFilter level (check_global_attrs ds) ++
    specLevelFilter level i2 ++ specLevelFilter level i3

theorem contrib_eq (issues : List Issue) (level : String) :
    (if issues.isEmpty then []
     else if level != ERROR then issues
     else issues.filter (fun i => i.1 == ERROR)) = specLevelFilter level issues := by
  cases issues with
  | nil => simp [specLevelFilter]
  | cons i rest => rfl

/-- **C7**: `verify_dataset` equals the spec's filtered rule concatenation
at both levels; at `ERROR` level every returned issue has ERROR severity;
and on a dataset whose `WARNING`-level run yields only WARNING findings the
`ERROR`-level run returns the empty list. -/
theorem filter_error_nil {l : List Issue} (h : ∀ i ∈ l, i.1 = WARNING) :
    l.filter (fun i => i.1 == ERROR) = [] := by
  rw [List.filter_eq_nil_iff]
  intro i hi
  rw [h i hi]
  decide

/-- **C7**: `verify_dataset` equals the spec's filtered rule concatenation
at both levels; at `ERROR` level every returned issue has ERROR severity;
and on a dataset whose `WARNING`-level run yields only WARNING findings the
`ERROR`-level run returns the empty list. -/
theorem C7_level_filter_and_rule_order (ds : Dataset) :
    verify_dataset ds WARNING = specVerify ds WARNING ∧
    verify_dataset ds ERROR = specVerify ds ERROR ∧
    (∀ l, verify_dataset ds ERROR = .ok l → ∀ i ∈ l, i.1 = ERROR) ∧
    (∀ l, verify_dataset ds WARNING = .ok l → (∀ i ∈ l, i.1 = WARNING) →
      verify_dataset ds ERROR = .ok []) := by
  have hW : (WARNING != ERROR) = true := rfl
  have hE : (ERROR != ERROR) = false := rfl
  have key : ∀ level, verify_dataset ds level = specVerify ds level := by
    intro level
    rcases h2 : check_time_coord ds with e2 | i2 <;>
      rcases h3 : check_xy_coords ds with e3 | i3 <;>
      simp only [verify_dataset, verifyLoop, get_rules, specVerify, h2, h3,
        exceptBind_ok, exceptBind_error, contrib_eq, List.append_nil,
        List.append_assoc] <;>
      rfl
  refine ⟨key WARNING, key ERROR, ?_, ?_⟩
  · intro l hl i hi
    rw [key ERROR] at hl
    rcases h2 : check_time_coord ds with e2 | i2 <;>
      rw [specVerify, h2] at hl
    · rw [exceptBind_error] at hl
      cases hl
    · rw [exceptBind_ok] at hl
      rcases h3 : check_xy_coords ds with e3 | i3 <;> rw [h3] at hl
      · rw [exceptBind_error] at hl
        cases hl
      · rw [exceptBind_ok] at hl
        have hl' := Except.ok.inj hl
        rw [← hl'] at hi
        simp only [specLevelFilter, hE, Bool.false_eq_true, if_false,
          List.mem_append, List.mem_filter, beq_iff_eq] at hi
        rcases hi with (hi | hi) | hi <;> exact hi.2
  · intro l hl hw
    rw [key WARNING] at hl
    rw [key ERROR, specVerify]
    rcases h2 : check_time_coord ds with e2 | i2 <;>
      rw [specVerify, h2] at hl
    · rw [exceptBind_error] at hl
      cases hl
    · rw [exceptBind_ok] at hl
      rw [exceptBind_ok]
      rcases h3 : check_xy_coords ds with e3 | i3 <;> rw [h3] at hl
      · rw [exceptBind_error] at hl
        cases hl
      · rw [exceptBind_ok] at hl
        rw [exceptBind_ok]
        have hl' := Except.ok.inj hl
        rw [← hl'] at hw
        simp only [specLevelFilter, hW, if_true, List.mem_append] at hw
        show Except.ok _ = _
        simp only [specLevelFilter, hE, Bool.false_eq_true, if_false]
        rw [filter_error_nil (fun i hi => hw i (Or.inl (Or.inl hi))),
            filter_error_nil (fun i hi => hw i (Or.inl (Or.inr hi))),
            filter_error_nil (fun i hi => hw i (Or.inr hi))]
        rfl

/-- A dataset whose validation yields only WARNING findings: valid
single-cell `lon`/`lat`/`time` coordinates and no global attributes (so
every expected global attribute produces a missing-attribute WARNING and
nothing produces an ERROR). -/
def warningOnlyDataset : Dataset :=
  ⟨[("time", { dims := ["time"],
               attrs := [("standard_name", .str "time"), ("units", .str "s")],
               values := [0] }),
    ("lon", { dims := ["lon"],
              attrs := [("standard_name", .str "longitude"),
                        ("units", .str "degrees_east")],
              values := [0] }),
    ("lat", { dims := ["lat"],
              attrs := [("standard_name", .str "latitude"),
                        ("units", .str "degrees_north")],
              values := [0] })], []⟩

/-- **C7 witness**: on `warningOnlyDataset` the `WARNING`-level run returns
exactly the 18 missing-global-attribute WARNINGs, and therefore the
`ERROR`-level run returns the empty list. -/
theorem C7_witness :
    verify_dataset warningOnlyDataset ERROR = .ok [] :=
  (C7_level_filter_and_rule_order warningOnlyDataset).2.2.2
    (EXPECTED_GLOBAL_ATTRS.map
      (fun a => (WARNING, "missing global attribute " ++ a)))
    rfl (by decide)

/-! ### C5: the generator/validator round trip at default parameters -/

theorem ifIsEmpty_self {α : Type} (l : List α) :
    (if l.isEmpty = true then ([] : List α) else l) = l := by
  cases l <;> simp

theorem checkMonoInc_ok {ds : Dataset} {name : String} {v : Variable}
    (h1 : ds.get name = some v) (h2 : v.dims = [name])
    (h3 : allPos (diffs v.values) = true) :
    checkMonoInc ds name = .ok [] := by
  rw [checkMonoInc, check1dCoord, h1]
  dsimp only
  rw [h2]
  simp [h3, exceptBind_ok]

theorem checkMonoIncOrDec_ok {ds : Dataset} {name : String} {v : Variable}
    (h1 : ds.get name = some v) (h2 : v.dims = [name])
    (h3 : allPos (diffs v.values) = true) :
    checkMonoIncOrDec ds name = .ok [] := by
  rw [checkMonoIncOrDec, check1dCoord, h1]
  dsimp only
  rw [h2]
  simp [h3, exceptBind_ok]

/-- The variable list of a dataset generated with the default axis names
and bounds enabled, abstracted over the coordinate data. -/
def defaultShapeVars (xv yv tv : List ℚ) (bx bye bt : List (ℚ × ℚ)) :
    List (String × Variable) :=
  [("lon", { dims := ["lon"],
             attrs := [("units", .str "degrees_east"),
                       ("long_name", .str "longitude"),
                       ("standard_name", .str "longitude"),
                       ("bounds", .str "lon_bnds")],
             values := xv }),
   ("lat", { dims := ["lat"],
             attrs := [("units", .str "degrees_north"),
                       ("long_name", .str "latitude"),
                       ("standard_name", .str "latitude"),
                       ("bounds", .str "lat_bnds")],
             values := yv }),
   ("time", { dims := ["time"],
              attrs := [("bounds", .str "time_bnds")],
              values := tv }),
   ("lon_bnds", { dims := ["lon", "bnds"],
                  attrs := [("units", .str "degrees_east")],
                  values2 := bx }),
   ("lat_bnds", { dims := ["lat", "bnds"],
                  attrs := [("units", .str "degrees_north")],
                  values2 := bye }),
   ("time_bnds", { dims := ["time", "bnds"], attrs := [], values2 := bt })]

/-- Validation of a default-shaped generated dataset: whatever the global
attributes contribute, the only additional `WARNING`-level findings are the
two missing `standard_name`/`units` attributes on the `time` variable
(whose CF attributes live in the xarray `encoding`, which the rules do not
read), provided the three coordinate arrays are strictly increasing. -/
theorem verify_default_shape (xv yv tv : List ℚ) (bx bye bt : List (ℚ × ℚ))
    (gattrs : Attrs) (ga : List Issue)
    (hlon : allPos (diffs xv) = true)
    (hlat : allPos (diffs yv) = true)
    (htime : allPos (diffs tv) = true)
    (hga : check_global_attrs ⟨defaultShapeVars xv yv tv bx bye bt, gattrs⟩ = ga) :
    verify_dataset ⟨defaultShapeVars xv yv tv bx bye bt, gattrs⟩ WARNING =
      .ok (ga ++
        [(WARNING, "missing attribute standard_name in variable time"),
         (WARNING, "missing attribute units in variable time")]) := by
  set ds : Dataset := ⟨defaultShapeVars xv yv tv bx bye bt, gattrs⟩ with hds
  have hgTime : ds.get "time" = some
      { dims := ["time"], attrs := [("bounds", .str "time_bnds")],
        values := tv } := rfl
  have hgLon : ds.get "lon" = some
      { dims := ["lon"],
        attrs := [("units", .str "degrees_east"),
                  ("long_name", .str "longitude"),
                  ("standard_name", .str "longitude"),
                  ("bounds", .str "lon_bnds")],
        values := xv } := rfl
  have hgLat : ds.get "lat" = some
      { dims := ["lat"],
        attrs := [("units", .str "degrees_north"),
                  ("long_name", .str "latitude"),
                  ("standard_name", .str "latitude"),
                  ("bounds", .str "lat_bnds")],
        values := yv } := rfl
  have hct : check_time_coord ds = .ok
      [(WARNING, "missing attribute standard_name in variable time"),
       (WARNING, "missing attribute units in variable time")] := by
    rw [check_time_coord, checkMonoInc_ok hgTime rfl htime, exceptBind_ok]
    rfl
  have hxy : check_xy_coords ds = .ok [] := by
    rw [check_xy_coords]
    show (do
      let i1 ← checkMonoInc ds "lon"
      let i2 ← checkMonoIncOrDec ds "lat"
      let issues := ([] : List Issue) ++ checkVariable ds "lon" ++
        checkVariable ds "lat" ++ i1 ++ i2
      let issues := issues ++
        concatMap (fun (nv : String × Variable) =>
            if nv.2.dims.contains "lat" && nv.2.dims.contains "lon" &&
               lastTwo nv.2.dims != ["lat", "lon"] then
              oneSevere ("last two dimensions of variable " ++ nv.1 ++
                " must be (" ++ "lat" ++ ", " ++ "lon" ++ ")")
            else [])
          ds.vars
      return issues) = _
    rw [checkMonoInc_ok hgLon rfl hlon, exceptBind_ok,
        checkMonoIncOrDec_ok hgLat rfl hlat, exceptBind_ok]
    rfl
  have hW : (WARNING != ERROR) = true := rfl
  rw [verify_dataset, get_rules]
  simp only [verifyLoop]
  rw [hga, hct, hxy]
  simp only [exceptBind_ok, contrib_eq, specLevelFilter, hW, if_true,
    ifIsEmpty_self, List.append_nil]

set_option maxRecDepth 8000 in
/-- Evaluation of the full round trip at the default parameters: the
dataset built by `new_dataset` with every default (bounds enabled,
fixed-precision time axis, no caller metadata), validated at `WARNING`
level. -/
theorem roundTrip_default_eval :
    roundTrip {} WARNING = .ok
      [(WARNING, "missing global attribute sources"),
       (WARNING, "missing global attribute history"),
       (WARNING, "missing global attribute id"),
       (WARNING, "missing attribute standard_name in variable time"),
       (WARNING, "missing attribute units in variable time")] := by
  have hlon : allPos (diffs (centersData (-180) (360 / 3600) 3600)) = true := by
    rw [centersData_eq_arithSeq]
    exact allPos_diffs_arithSeq (by norm_num) _ _
  have hlat : allPos (diffs (centersData (-90) (360 / 3600) 1800)) = true := by
    rw [centersData_eq_arithSeq]
    exact allPos_diffs_arithSeq (by norm_num) _ _
  have htime : allPos (diffs
      ((arithSeq (1262304000 + Int.fdiv 86400 2) 86400 5).map
        (fun (t : ℤ) => (t : ℚ)))) = true := by
    rw [arithSeq_map_cast]
    exact allPos_diffs_arithSeq (by norm_num) _ _
  exact verify_default_shape _ _ _ _ _ _ _
    [(WARNING, "missing global attribute sources"),
     (WARNING, "missing global attribute history"),
     (WARNING, "missing global attribute id")]
    hlon hlat htime rfl

/-- **C5 counterexample**: at default parameters the `WARNING`-level
validation result is *not* exactly the three caller-omitted
global-attribute WARNINGs — it additionally contains the WARNING about the
missing `standard_name` attribute on `time` (the generator writes the time
variable's CF metadata into the xarray `encoding`, which the validator does
not read). -/
theorem C5_cex_time_attr_warnings :
    roundTrip {} WARNING ≠ .ok
      [(WARNING, "missing global attribute sources"),
       (WARNING, "missing global attribute history"),
       (WARNING, "missing global attribute id")] ∧
    ∃ l, roundTrip {} WARNING = .ok l ∧
      (WARNING, "missing attribute standard_name in variable time") ∈ l := by
  refine ⟨?_, ?_⟩
  · rw [roundTrip_default_eval]
    intro h
    exact absurd (Except.ok.inj h) (by decide)
  · exact ⟨_, roundTrip_default_eval, by decide⟩

/-- **C5 amended**: the default-parameter dataset, validated at `WARNING`
level, yields zero ERROR issues and exactly five WARNINGs: the three
caller-omitted optional global attributes `sources`, `history`, `id`, plus
two WARNINGs for the `standard_name` and `units` attributes missing from
the `time` variable's attrs (they are stored in the xarray encoding). -/
theorem C5_round_trip_default :
    roundTrip {} WARNING = .ok
      [(WARNING, "missing global attribute sources"),
       (WARNING, "missing global attribute history"),
       (WARNING, "missing global attribute id"),
       (WARNING, "missing attribute standard_name in variable time"),
       (WARNING, "missing attribute units in variable time")] :=
  roundTrip_default_eval

end AVL
